import Mathlib

/-!
Verification of the showyourwork preprocessing and environment layer.

This file gives a shallow embedding, in Lean 4, of the parts of the
repository that the claims C1..C10 are about:

* `src/showyourwork/workflow/scripts/preprocess.py`
  (`flatten_zenodo_contents`, `parse_zenodo_datasets`, `parse_overleaf`,
  `check_figure_format`, `get_json_tree`, the labels-population loop),
* `src/workflow/utils/tex.py` (`compile_tex`),
* `src/showyourwork/cli/conda_env.py` (`run`, the dependency-append loop).

Python dictionaries are embedded as association lists with the usual
insert-overwrite-in-place-or-append-at-end semantics; pathlib joins are
embedded as posix segment joins; fallible code returns `Except`.
-/

/-- The error taxonomy (`showyourwork.exceptions`): one constructor per
failure kind that the embedded code can raise.  `pyError` stands for an
uncaught Python runtime error (e.g. an `AttributeError`). -/
inductive SywError where
  | configError (msg : String)
  | zenodoRecordNotFound (key : String)
  | invalidZenodoIdType (msg : String)
  | zenodoContentsError (msg : String)
  | figureFormatError (msg : String)
  | figureGenerationError (msg : String)
  | tectonicError
  | pyError (msg : String)
deriving Repr, DecidableEq

/-- Split a character list at every occurrence of a separator character
(the list-level engine of Python's `str.split` with a one-character
separator: `n` separators yield `n + 1` pieces, so the empty list yields
the single empty piece). -/
def splitChars (sep : Char) : List Char → List (List Char)
  | [] => [[]]
  | c :: rest =>
    let r := splitChars sep rest
    if c = sep then [] :: r else (c :: r.headD []) :: r.tail

/-- Python `s.split(sep)` for a one-character separator. -/
def strSplit (s : String) (sep : Char) : List String :=
  (splitChars sep s.data).map String.mk

/-- Python `s.endswith(suffix)`. -/
def strEndsWith (s suffix : String) : Bool :=
  suffix.data.isSuffixOf s.data

/-- Python `s.startswith(pre)`. -/
def strStartsWith (s pre : String) : Bool :=
  pre.data.isPrefixOf s.data

/-- Python `s[:-n]` for `0 < n ≤ len(s)`: drop the last `n` characters. -/
def strDropRight (s : String) (n : Nat) : String :=
  String.mk (s.data.take (s.data.length - n))

/-- Drop the first `n` characters. -/
def strDrop (s : String) (n : Nat) : String :=
  String.mk (s.data.drop n)

/-- The number of characters of a string. -/
def strLen (s : String) : Nat := s.data.length

/-- Python `s.strip()`: remove surrounding whitespace. -/
def strTrim (s : String) : String :=
  String.mk
    (((s.data.dropWhile Char.isWhitespace).reverse.dropWhile
      Char.isWhitespace).reverse)

/-- Lookup in an association list embedding a Python `dict`
(first — and, for a genuine dict, only — binding of the key wins). -/
def lookupA {α : Type} : List (String × α) → String → Option α
  | [], _ => none
  | (k, v) :: rest, key => if k = key then some v else lookupA rest key

/-- `d[key] = val` on a Python `dict`: overwrite in place if the key is
present, otherwise append the new binding at the end. -/
def insertA {α : Type} : List (String × α) → String → α → List (String × α)
  | [], key, val => [(key, val)]
  | (k, v) :: rest, key, val =>
    if k = key then (k, val) :: rest else (k, v) :: insertA rest key val

/-- `del d[key]` on a Python `dict`: drop the (unique) binding of the key. -/
def eraseA {α : Type} : List (String × α) → String → List (String × α)
  | [], _ => []
  | (k, v) :: rest, key => if k = key then rest else (k, v) :: eraseA rest key

/-- `dict(items)`: fold the pairs into a dict, so a repeated key keeps its
first position but its last value. -/
def dictOfPairs {α : Type} (ps : List (String × α)) : List (String × α) :=
  ps.foldl (fun acc kv => insertA acc kv.1 kv.2) []

/-- Posix join of path components, as pathlib's
`Path(c1, c2, ...).as_posix()` for relative components: empty and `"."`
components vanish, and an empty join renders as `"."`. -/
def pathJoin (comps : List String) : String :=
  let ys := comps.filter (fun c => c ≠ "" ∧ c ≠ ".")
  if ys.isEmpty then "." else String.intercalate "/" ys

/-- `Path(p).name`: the last `/`-separated component of a relative path. -/
def basename (p : String) : String := (strSplit p '/').getLastD ""

/-- Model of Python `int(s)` on strings: optional surrounding whitespace,
an optional single sign, then at least one decimal digit (digit-group
underscores are not modelled; no claim depends on them). -/
def py_int? (s : String) : Option Int :=
  let t := strTrim s
  let neg := strStartsWith t "-"
  let core := if neg || strStartsWith t "+" then strDrop t 1 else t
  if 0 < strLen core && core.data.all (fun c => c.isDigit) then
    let n : Nat := core.data.foldl (fun acc c => acc * 10 + (c.toNat - 48)) 0
    some (if neg then -(n : Int) else (n : Int))
  else none

/-! ### C1: figure-script command resolution (`get_json_tree`, preprocess.py 404-416) -/

/-- The candidate extensions tried by the resolution loop, in loop order:
`parts = name.split "."`; for `i = 1, ..., len(parts) - 1` the candidate is
`".".join(parts[-i:])` — the trailing dot-delimited suffixes of the name
from shortest to longest, never including the whole name. -/
def trailing_suffixes (name : String) : List String :=
  let parts := strSplit name '.'
  (List.range' 1 (parts.length - 1)).map
    (fun i => String.intercalate "." (parts.drop (parts.length - i)))

/-- The `for ... break / else raise` extension-matching loop of
`get_json_tree`: the first candidate suffix registered in
`script_extensions` is selected; if none is, a figure-generation
failure is raised. -/
def resolve_script_ext (script_extensions : List String) (name : String) :
    Except SywError String :=
  match (trailing_suffixes name).find? (fun ext => script_extensions.contains ext) with
  | some ext => .ok ext
  | none => .error (.figureGenerationError
      ("Can't determine how to execute the figure script " ++ name ++
       ". Please provide instructions on how to execute scripts with this extension in the config file."))

/-- `command = config["scripts"][ext]` for the selected extension; the
lookup is partial (a Python `KeyError` is embedded as `none`). -/
def resolve_script_command (script_extensions : List String)
    (scripts : List (String × String)) (name : String) :
    Except SywError (Option String) :=
  (resolve_script_ext script_extensions name).map (fun ext => lookupA scripts ext)

/-! ### C2: `compile_tex` exit handling (`src/workflow/utils/tex.py` 26-37) -/

/-- The result of `subprocess.run` with captured streams. -/
structure SubprocResult where
  returncode : Int
  stdout : String
  stderr : String
deriving Repr, DecidableEq

/-- The tail of `compile_tex` after the engine subprocess returns:
on non-zero exit print the captured stdout and stderr (first component:
the list of printed strings) and raise `TectonicError`; on zero exit the
Python function falls off its end, i.e. returns `None` — embedded as
`Except.ok none` (it never returns the subprocess result). -/
def compile_tex_post (result : SubprocResult) :
    List String × Except SywError (Option SubprocResult) :=
  if result.returncode ≠ 0 then
    ([result.stdout, result.stderr], .error .tectonicError)
  else
    ([], .ok none)

/-! ### C3: conda environment specifier append (`conda_env.py`, `run`, 63-69) -/

/-- One entry of the `dependencies` list of an environment-specification
document: either a bare package-name string, or a YAML mapping whose
values are lists of specifiers (the shape the append loop inspects for a
`pip` key). -/
inductive CondaDep where
  | depstr (s : String)
  | depmap (entries : List (String × List String))
deriving Repr, DecidableEq

/-- The body of the loop `for dep in syw_env["dependencies"]`:
`if type(dep) is dict and "pip" in dep: dep["pip"].append(syw_spec)`. -/
def append_pip_spec (syw_spec : String) (dep : CondaDep) : CondaDep :=
  match dep with
  | .depstr s => .depstr s
  | .depmap entries =>
    if (lookupA entries "pip").isSome then
      .depmap (entries.map (fun kv => if kv.1 = "pip" then (kv.1, kv.2 ++ [syw_spec]) else kv))
    else .depmap entries

/-- The whole append loop over the dependency list (the loop has no
`break`: every entry is visited). -/
def add_syw_spec (syw_spec : String) (deps : List CondaDep) : List CondaDep :=
  deps.map (append_pip_spec syw_spec)

/-! ### C4: `flatten_zenodo_contents` (preprocess.py 15-59) -/

/-- A value in a raw Zenodo `contents` declaration: Python `None`, a
string, a nested mapping, or a list (lists are illegal and detected by the
callers of the flattening). -/
inductive ZVal where
  | vnone
  | vstr (s : String)
  | vmap (entries : List (String × ZVal))
  | vlist (elems : List String)

/-- Modelled from the spec: the repository-relative user data directory
`paths.user().data.relative_to(paths.user().repo)` used as the fallback
default path (the `showyourwork.paths` module is not under `src/`; §6 of
the spec fixes the layout `src/data`). -/
def user_data_rel : String := "src/data"

/-- The default-target synthesis for a `None` leaf of the `contents`
mapping: join the default path with the compound key, except that when the
first path segment of the compound key ends with `"." ++ ext` for some
recognized archive extension `ext` (first match in `zip_exts` order), that
extension is stripped from the first segment before joining. -/
def default_target (zip_exts : List String) (defp new_key : String) : String :=
  let parts := strSplit new_key '/'
  let zip_file := parts.headD ""
  match zip_exts.find? (fun ext => strEndsWith zip_file ("." ++ ext)) with
  | some ext =>
    pathJoin (defp :: strDropRight zip_file (strLen ext + 1) :: parts.tail)
  | none => pathJoin [defp, new_key]

/-- The item loop of `flatten_zenodo_contents`: build the compound key
(posix join with the parent key, or the bare key at the top level);
recurse into nested mappings (each recursive result is passed through
`dict(...)` before being extended into the accumulator, as in the Python);
replace a `None` leaf by its synthesized default target; pass any other
leaf through verbatim. -/
def flat_list (zip_exts : List String) (defp : String) :
    String → List (String × ZVal) → List (String × ZVal)
  | _, [] => []
  | parent, (k, v) :: rest =>
    let new_key := if parent = "" then k else pathJoin [parent, k]
    let hd := match v with
      | .vmap entries => dictOfPairs (flat_list zip_exts defp new_key entries)
      | .vstr s => [(new_key, .vstr s)]
      | .vlist xs => [(new_key, .vlist xs)]
      | .vnone => [(new_key, .vstr (default_target zip_exts defp new_key))]
    hd ++ flat_list zip_exts defp parent rest
termination_by _ l => sizeOf l
decreasing_by all_goals (simp_wf; try omega)

/-- `flatten_zenodo_contents(d, parent_key, default_path)`: a falsy
`default_path` (embedded as `""`) falls back to the user data directory; a
bare string document is normalized to a single-`None` mapping; a list
document raises the configuration failure; a `None` document would crash
Python (`d.items()` on `None`), embedded as `pyError`.  The resulting pair
list is passed through `dict(...)`.  `zip_exts` stands for the
`zenodo.zip_exts` constant of the (not vendored here) dataset client. -/
def flatten_zenodo_contents (zip_exts : List String) (d : ZVal)
    (parent_key : String) (default_path : String) :
    Except SywError (List (String × ZVal)) :=
  let defp := if default_path = "" then user_data_rel else default_path
  match d with
  | .vstr s => .ok (dictOfPairs (flat_list zip_exts defp parent_key [(s, .vnone)]))
  | .vlist _ => .error (.configError
      ("Error parsing the config. Something is not formatted correctly in " ++
       "either the `zenodo` or `zenodo_sandbox` field."))
  | .vmap entries => .ok (dictOfPairs (flat_list zip_exts defp parent_key entries))
  | .vnone => .error (.pyError "AttributeError: NoneType object has no attribute items")

/-! ### C5: archive splitting in `parse_zenodo_datasets` (preprocess.py 172-206) -/

/-- The mutable state of the archive-splitting loop: the (flattened)
`contents` dict and the `zip_files` dict-of-dicts being built. -/
structure ZState where
  contents : List (String × ZVal)
  zip_files : List (String × List (String × ZVal))

/-- One iteration of `for source in list(contents.keys())`: read the
current target (a missing key — unreachable for snapshot keys — skips);
a list target raises the contents failure; when the first path segment of
the source ends with a recognized archive extension, move the entry under
`zip_files[zip_file]` keyed by the remaining in-archive path (merging into
any existing mapping for that archive), delete the compound key from
`contents`, and point `contents[zip_file]` at the per-deposit staging path
`tmp_path/<deposit_id>/<zip_file>` — split below into the dispatch
(`zip_step`) and the non-list tail of the loop body (`zip_step_go`). -/
def zip_step_go (zip_exts : List String) (tmp_path : String) (deposit_id : Int)
    (st : ZState) (source : String) (target : ZVal) : Except SywError ZState :=
  let parts := strSplit source '/'
  let zip_file := parts.headD ""
  if zip_exts.any (fun ext => strEndsWith zip_file ("." ++ ext)) then
    let new_source := pathJoin parts.tail
    let inner := match lookupA st.zip_files zip_file with
      | some m => insertA m new_source target
      | none => [(new_source, target)]
    let zf := insertA st.zip_files zip_file inner
    let c1 := eraseA st.contents source
    let c2 := insertA c1 zip_file
      (.vstr (pathJoin [tmp_path, toString deposit_id, zip_file]))
    .ok { contents := c2, zip_files := zf }
  else .ok st

def zip_step (zip_exts : List String) (tmp_path : String) (deposit_id : Int)
    (st : ZState) (source : String) : Except SywError ZState :=
  match lookupA st.contents source with
  | none => .ok st
  | some target =>
    match target with
    | .vlist _ => .error (.zenodoContentsError
        ("Error parsing the config. The `contents` field of a Zenodo " ++
         "deposit must be provided as a mapping, not as a list."))
    | _ => zip_step_go zip_exts tmp_path deposit_id st source target

/-- The whole archive-splitting loop: `entry["zip_files"] = {}` followed by
the iteration over a snapshot of the flattened `contents` keys. -/
def parse_zip_contents (zip_exts : List String) (tmp_path : String)
    (deposit_id : Int) (contents : List (String × ZVal)) :
    Except SywError ZState :=
  (contents.map Prod.fst).foldlM (zip_step zip_exts tmp_path deposit_id)
    { contents := contents, zip_files := [] }

/-! ### C6: deposit key parsing and id-type gate (preprocess.py 138-161) -/

/-- `int(deposit_id)` with `except: raise ZenodoRecordNotFound(...)`. -/
def parse_deposit_key (k : String) : Except SywError Int :=
  match py_int? k with
  | some n => .ok n
  | none => .error (.zenodoRecordNotFound k)

/-- The concept-id error message (two adjacent Python string literals, so
no space between `"id."` and `"Datasets"`). -/
def zenodo_concept_msg (deposit_id : Int) : String :=
  "Error parsing the config. " ++ "Zenodo id " ++ toString deposit_id ++
  " seems to be a concept id." ++
  "Datasets should be specified using their static version id instead."

/-- The generic invalid-id error message. -/
def zenodo_invalid_msg (deposit_id : Int) : String :=
  "Error parsing the config. " ++ "Zenodo id " ++ toString deposit_id ++
  " is not a valid version id."

/-- The id-type gate: anything other than `"version"` raises, with a
concept-specific message for `"concept"`; `"version"` passes. -/
def check_id_type (deposit_id : Int) (id_type : String) :
    Except SywError Unit :=
  if id_type ≠ "version" then
    if id_type = "concept" then
      .error (.invalidZenodoIdType (zenodo_concept_msg deposit_id))
    else
      .error (.invalidZenodoIdType (zenodo_invalid_msg deposit_id))
  else .ok ()

/-! ### C7: `parse_overleaf` (preprocess.py 62-120) -/

/-- Split a path string into its non-trivial posix segments
(pathlib drops empty and `"."` components). -/
def strToParts (s : String) : List String :=
  (strSplit s '/').filter (fun c => c ≠ "" ∧ c ≠ ".")

/-- Resolve `".."` segments against an accumulated absolute segment list
(at the root, `".."` stays at the root, as in posix resolution). -/
def normalizeParts (ps : List String) : List String :=
  ps.foldl (fun acc p => if p = ".." then acc.dropLast else acc ++ [p]) []

/-- `Path(file).resolve()` as a segment list: an absolute path stands
alone, a relative one is joined to the (already absolute, normalized)
working directory; `"."` and `".."` are normalized away (symbolic links
are not modelled). -/
def resolvePath (cwd : List String) (file : String) : List String :=
  if strStartsWith file "/" then normalizeParts (strToParts file)
  else normalizeParts (cwd ++ strToParts file)

/-- `str(p.relative_to(base))` for `base` a segment prefix of `p`: the
remaining segments joined with `/`, or `"."` when they coincide. -/
def relToStr (base resolved : List String) : String :=
  let r := resolved.drop base.length
  if r.isEmpty then "." else String.intercalate "/" r

/-- The raw value of `overleaf.push` / `overleaf.pull` in the user config:
missing, YAML `null`, a list of strings, or any other (non-list) value. -/
inductive RawField where
  | absent
  | null
  | list (xs : List String)
  | other
deriving Repr, DecidableEq

/-- The raw `overleaf` section of the user config. -/
structure OverleafRaw where
  id : Option String
  auto_commit : Option Bool
  push : RawField
  pull : RawField
deriving Repr, DecidableEq

/-- The `overleaf` section after `parse_overleaf` has filled defaults. -/
structure OverleafNorm where
  id : Option String
  auto_commit : Bool
  push : List String
  pull : List String
deriving Repr, DecidableEq

/-- Normalize one raw `push`/`pull` field: missing and `null` become the
empty list, a non-list raises the configuration failure naming the field. -/
def overleaf_list_field (name : String) (f : RawField) :
    Except SywError (List String) :=
  match f with
  | .absent => .ok []
  | .null => .ok []
  | .list xs => .ok xs
  | .other => .error (.configError
      ("Error parsing the config. The `overleaf." ++ name ++ "` field must be a list."))

/-- The membership and disjointness checks of `parse_overleaf`, after the
`push`/`pull` lists have been normalized: every resolved file must live
under `tex` (raising at the first offender, as the Python loop does), and
the sets of resolved paths relative to `tex` must not intersect. -/
def overleaf_check (tex cwd : List String) (id : Option String) (ac : Bool)
    (push pull : List String) : Except SywError OverleafNorm :=
  if (push ++ pull).any (fun file => ¬ tex.isPrefixOf (resolvePath cwd file)) then
    .error (.configError
      ("Error parsing the config. Files specified in `overleaf.push` and " ++
       "`overleaf.pull` must be located under the `src/tex` directory."))
  else if push.any (fun f => pull.any (fun g =>
      relToStr tex (resolvePath cwd f) = relToStr tex (resolvePath cwd g))) then
    .error (.configError
      ("Error parsing the config. One more more files are listed in both " ++
       "`overleaf.push` and `overleaf.pull`, which is not supported."))
  else
    .ok { id := id, auto_commit := ac, push := push, pull := pull }

/-- `parse_overleaf`, parametrized by the manuscript-source directory
`tex` (the `paths.user().tex` of the path registry, `<repo>/src/tex`) and
the working directory `cwd` against which relative paths resolve, both as
absolute segment lists: default `id` and `auto-commit`, normalize `push`
and `pull`, then run the membership and disjointness checks. -/
def parse_overleaf (tex cwd : List String) (cfg : OverleafRaw) :
    Except SywError OverleafNorm := do
  let push ← overleaf_list_field "push" cfg.push
  let pull ← overleaf_list_field "pull" cfg.pull
  overleaf_check tex cwd cfg.id (cfg.auto_commit.getD false) push pull

/-! ### C8: `check_figure_format` (preprocess.py 209-289) -/

/-- One element of the diagnostic markup tree: a tag, its text (Python
`None` text embedded as `""`), and its direct children. -/
structure XmlElem where
  tag : String
  text : String
  children : List XmlElem

/-- `element.findall(tag)`: the direct children bearing the tag. -/
def findall (e : XmlElem) (t : String) : List XmlElem :=
  e.children.filter (fun c => c.tag = t)

/-- A default element for the (guarded) `labels[0]` style accesses. -/
def dfltElem : XmlElem := { tag := "", text := "", children := [] }

/-- The caption/label/margin-icon ordering block of `check_figure_format`
(preprocess.py 231-265), entered only when a caption is present: the index
of the first label must not be smaller than the index of the last caption,
and the index of the first margin icon (0 when there is none) must not
exceed the index of the first label. -/
def check_order (elements labels captions : List XmlElem) :
    Except SywError Unit :=
  if 0 < captions.length then
    let caption_idx := elements.length - 1 -
      elements.reverse.findIdx (fun e => e.tag == "CAPTION")
    if 0 < labels.length then
      let label_idx := elements.findIdx (fun e => e.tag == "LABEL")
      if label_idx < caption_idx then
        .error (.figureFormatError
          ("Figure label `" ++ (labels.headD dfltElem).text ++
           "` must come after the caption."))
      else
        let marginicon_idx :=
          if elements.any (fun e => e.tag == "MARGINICON") then
            elements.findIdx (fun e => e.tag == "MARGINICON")
          else 0
        if label_idx < marginicon_idx then
          .error (.figureFormatError
            "Command marginicon must always come before the figure label.")
        else .ok ()
    else .ok ()
  else .ok ()

/-- The multiplicity checks closing `check_figure_format`
(preprocess.py 267-289): at most one label, at most one script, and a
script requires a label. -/
def check_tail (labels scripts : List XmlElem) : Except SywError Unit :=
  if 2 ≤ labels.length then
    .error (.figureFormatError
      ("A figure has multiple labels: `" ++
       String.intercalate ", " (labels.map (fun l => l.text)) ++ "`"))
  else if 2 ≤ scripts.length then
    .error (.figureFormatError
      ("A figure has multiple scripts: `" ++
       String.intercalate ", " (scripts.map (fun s => s.text)) ++ "`"))
  else if 0 < scripts.length ∧ labels.length = 0 then
    .error (.figureFormatError
      ("A figure defines a script but has no label: `" ++
       String.intercalate ", " (scripts.map (fun s => s.text)) ++ "`"))
  else .ok ()

/-- `check_figure_format(figure)`: (1) no label nested in a caption
(raising on the first caption holding one); (2) the ordering block
`check_order`; (3) the multiplicity checks `check_tail`.  Raises the first
violated rule's format failure, in this order, as the Python does. -/
def check_figure_format (figure : XmlElem) : Except SywError Unit :=
  let elements := figure.children
  let captions := findall figure "CAPTION"
  let labels := findall figure "LABEL"
  let scripts := findall figure "SCRIPT"
  match captions.find? (fun c => 0 < (findall c "LABEL").length) with
  | some c => .error (.figureFormatError
      ("Label `" ++ ((findall c "LABEL").headD dfltElem).text ++
       "` should not be nested within the figure caption"))
  | none =>
    match check_order elements labels captions with
    | .error e => .error e
    | .ok _ => check_tail labels scripts

/-! ### C9: label emission (preprocess.py 578-586) and dataset dedup (467) -/

/-- One figure entry of the article tree (preprocess.py 479-485). -/
structure FigureEntry where
  script : Option String
  graphics : List String
  datasets : List String
  dependencies : List String
  command : Option String
deriving Repr, DecidableEq

/-- The deduplication `datasets = list(set(datasets))` of the collected
dataset URLs (preprocess.py 467): the result holds exactly the distinct
elements; Python's set iteration order is unspecified, first-occurrence
order is used here (no claim depends on the order of the survivors). -/
def dedup_datasets (ds : List String) : List String := ds.dedup

/-- The body of the labels-population loop for one `(label, value)` pair:
a `<label>_script` entry when a script is present, then one
`<label>_dataset{One,Two,Three}` entry per dataset, `zip`-truncated to the
first three datasets. -/
def figure_labels (label : String) (value : FigureEntry) :
    List (String × String) :=
  (match value.script with
   | some s => [(label ++ "_script", s)]
   | none => []) ++
  (value.datasets.zip ["One", "Two", "Three"]).map
    (fun dn => (label ++ "_dataset" ++ dn.2, dn.1))

/-! ### C10: the synthetic free-floating entries (preprocess.py 517-546) -/

/-- The tail of `get_json_tree` that installs the two synthetic entries:
`free-floating-dynamic` (no script, no datasets, no dependencies, no
command) and `free-floating-static` (no script, command = a `cp` of every
static free-floating graphic, addressed in the repo-relative static
directory `static_rel` by basename, to the repo-relative figures
directory `dest`). -/
def add_free_floating (figures : List (String × FigureEntry))
    (ff_dynamic ff_static : List String) (static_rel dest : String) :
    List (String × FigureEntry) :=
  let figs1 := insertA figures "free-floating-dynamic"
    { script := none, graphics := ff_dynamic, datasets := [],
      dependencies := [], command := none }
  let srcs := String.intercalate " "
    (ff_static.map (fun g => pathJoin [static_rel, basename g]))
  insertA figs1 "free-floating-static"
    { script := none, graphics := ff_static, datasets := [],
      dependencies := [], command := some ("cp " ++ srcs ++ " " ++ dest) }

/-! ## Helper lemmas -/

theorem lookupA_insertA_self {α : Type} (l : List (String × α)) (k : String) (v : α) :
    lookupA (insertA l k v) k = some v := by
  induction l with
  | nil => simp [insertA, lookupA]
  | cons kv rest ih =>
    obtain ⟨k0, v0⟩ := kv
    by_cases h : k0 = k
    · simp [insertA, lookupA, h]
    · simpa [insertA, lookupA, h] using ih

theorem lookupA_insertA_ne {α : Type} (l : List (String × α)) (k k' : String) (v : α)
    (h : k' ≠ k) : lookupA (insertA l k v) k' = lookupA l k' := by
  induction l with
  | nil => simp [insertA, lookupA, Ne.symm h]
  | cons kv rest ih =>
    obtain ⟨k0, v0⟩ := kv
    by_cases hk : k0 = k
    · subst hk
      simp [insertA, lookupA, Ne.symm h]
    · by_cases hk' : k0 = k' <;> simp [insertA, lookupA, hk, hk', ih, h]

theorem lookupA_mem_of_some {α : Type} (l : List (String × α)) (k : String) (v : α)
    (h : lookupA l k = some v) : k ∈ l.map Prod.fst := by
  induction l with
  | nil => simp [lookupA] at h
  | cons kv rest ih =>
    obtain ⟨k0, v0⟩ := kv
    by_cases hk : k0 = k
    · simp [hk]
    · simp only [lookupA, hk, if_false] at h
      simp [ih h]

theorem lookupA_eraseA_self {α : Type} (l : List (String × α)) (k : String)
    (hnd : (l.map Prod.fst).Nodup) : lookupA (eraseA l k) k = none := by
  induction l with
  | nil => simp [eraseA, lookupA]
  | cons kv rest ih =>
    obtain ⟨k0, v0⟩ := kv
    simp only [List.map_cons, List.nodup_cons] at hnd
    by_cases hk : k0 = k
    · subst hk
      cases hrest : lookupA rest k0 with
      | none => simpa [eraseA] using hrest
      | some v => exact absurd (lookupA_mem_of_some rest k0 v hrest) hnd.1
    · simp [eraseA, lookupA, hk, ih hnd.2]

theorem find?_first {α : Type} (p : α → Bool) (pre : List α) (x : α) (post : List α)
    (hpre : ∀ e ∈ pre, p e = false) (hx : p x = true) :
    (pre ++ x :: post).find? p = some x := by
  induction pre with
  | nil => simp [List.find?, hx]
  | cons a rest ih =>
    have ha := hpre a (by simp)
    simp only [List.cons_append, List.find?, ha]
    exact ih (fun e he => hpre e (by simp [he]))

/-! ## C1 -/

/-- C1, counterexample: with both the shorter suffix `gz` and the longer
suffix `tar.gz` registered for the script name `data.tar.gz`, command
resolution selects the SHORTER suffix's template (`CMD_SHORT`), not the
longer suffix's template (`CMD_LONG`) as the claim states. -/
theorem c1_counterexample :
    resolve_script_command ["gz", "tar.gz"]
        [("gz", "CMD_SHORT"), ("tar.gz", "CMD_LONG")] "data.tar.gz"
      = .ok (some "CMD_SHORT")
    ∧ "tar.gz" ∈ ["gz", "tar.gz"] ∧ "gz" ∈ ["gz", "tar.gz"]
    ∧ "CMD_SHORT" ≠ "CMD_LONG" := by
  have hfind : (trailing_suffixes "data.tar.gz").find?
      (fun ext => (["gz", "tar.gz"] : List String).contains ext) = some "gz" := by
    decide
  refine ⟨?_, by simp, by simp, by decide⟩
  simp only [resolve_script_command, resolve_script_ext]
  rw [hfind]
  rfl

/-- C1, amended: command resolution tries the trailing dot-delimited
suffixes of the script name from shortest to longest and selects the
command template of the FIRST (i.e. shortest) registered suffix; when no
trailing dot-delimited suffix is registered, the figure-generation
failure is raised. -/
theorem c1_shortest_suffix_selected (exts : List String)
    (scripts : List (String × String)) (name : String) :
    (∀ pre ext post, trailing_suffixes name = pre ++ ext :: post →
      (∀ e ∈ pre, e ∉ exts) → ext ∈ exts →
      resolve_script_command exts scripts name = .ok (lookupA scripts ext))
    ∧ ((∀ e ∈ trailing_suffixes name, e ∉ exts) →
      resolve_script_command exts scripts name = .error (.figureGenerationError
        ("Can't determine how to execute the figure script " ++ name ++
         ". Please provide instructions on how to execute scripts with this extension in the config file."))) := by
  constructor
  · intro pre ext post hsplit hpre hext
    have hfind : (trailing_suffixes name).find?
        (fun ext => exts.contains ext) = some ext := by
      rw [hsplit]
      exact find?_first _ pre ext post
        (fun e he => by simpa using hpre e he) (by simpa using hext)
    simp only [resolve_script_command, resolve_script_ext]
    rw [hfind]
    rfl
  · intro hall
    have hfind : (trailing_suffixes name).find?
        (fun ext => exts.contains ext) = none := by
      rw [List.find?_eq_none]
      intro e he
      simpa using hall e he
    simp only [resolve_script_command, resolve_script_ext]
    rw [hfind]
    rfl

/-- Witness for `c1_shortest_suffix_selected` at the registered pair
`gz` / `tar.gz` and the script name `data.tar.gz`. -/
theorem c1_shortest_suffix_selected_witness :
    resolve_script_command ["gz", "tar.gz"] [("gz", "A"), ("tar.gz", "B")]
      "data.tar.gz" = .ok (some "A") := by
  have h := (c1_shortest_suffix_selected ["gz", "tar.gz"]
      [("gz", "A"), ("tar.gz", "B")] "data.tar.gz").1 [] "gz" ["tar.gz"]
    (by decide) (by simp) (by simp)
  rw [h]
  rfl

/-! ## C2 -/

/-- C2, counterexample: on a zero engine exit, `compile_tex` does not
return the subprocess result — the Python function falls off its end and
returns `None` (embedded as `Except.ok none`), which differs from
returning the subprocess result. -/
theorem c2_counterexample :
    compile_tex_post ⟨0, "out", "err"⟩ = ([], .ok none)
    ∧ (compile_tex_post ⟨0, "out", "err"⟩).2
        ≠ .ok (some (⟨0, "out", "err"⟩ : SubprocResult)) := by
  refine ⟨rfl, ?_⟩
  simp [compile_tex_post]

/-- C2, amended: on a non-zero engine exit, `compile_tex` prints the
captured stdout and stderr and raises the typesetting failure; on a zero
exit it returns without raising and without printing, but returns `None`
rather than the subprocess result. -/
theorem c2_exit_handling (r : SubprocResult) :
    (r.returncode ≠ 0 →
      compile_tex_post r = ([r.stdout, r.stderr], .error .tectonicError))
    ∧ (r.returncode = 0 → compile_tex_post r = ([], .ok none)) := by
  constructor <;> intro h <;> simp [compile_tex_post, h]

/-- Witness for `c2_exit_handling` at a failing and at a succeeding
subprocess result. -/
theorem c2_exit_handling_witness :
    compile_tex_post ⟨1, "o", "e"⟩ = (["o", "e"], .error .tectonicError)
    ∧ compile_tex_post ⟨0, "o", "e"⟩ = ([], .ok none) :=
  ⟨(c2_exit_handling ⟨1, "o", "e"⟩).1 (by decide),
   (c2_exit_handling ⟨0, "o", "e"⟩).2 rfl⟩

/-! ## C3 -/

/-- C3, counterexample: with a document whose dependency list contains TWO
mapping entries with a `pip` key, the append loop appends the resolved
specifier to BOTH of them — the second entry is not left unchanged, so the
specifier is not appended exactly once. -/
theorem c3_counterexample :
    add_syw_spec "S" [.depmap [("pip", [])], .depmap [("pip", [])]]
      = [.depmap [("pip", ["S"])], .depmap [("pip", ["S"])]]
    ∧ (add_syw_spec "S" [.depmap [("pip", [])], .depmap [("pip", [])]])[1]?
      ≠ some (.depmap [("pip", [])]) := by
  exact ⟨rfl, by decide⟩

theorem lookupA_map_pip (spec : String) (entries : List (String × List String)) :
    lookupA (entries.map (fun kv =>
      if kv.1 = "pip" then (kv.1, kv.2 ++ [spec]) else kv)) "pip"
    = (lookupA entries "pip").map (fun l => l ++ [spec]) := by
  induction entries with
  | nil => rfl
  | cons kv rest ih =>
    obtain ⟨k0, v0⟩ := kv
    by_cases hk : k0 = "pip"
    · subst hk
      simp [lookupA, ih]
    · rw [List.map_cons,
        if_neg (show ¬ (((k0 : String), v0).1 = "pip") from hk)]
      simp [lookupA, hk, ih]

theorem lookupA_map_pip_ne (spec : String) (entries : List (String × List String))
    (k : String) (hk : k ≠ "pip") :
    lookupA (entries.map (fun kv =>
      if kv.1 = "pip" then (kv.1, kv.2 ++ [spec]) else kv)) k
    = lookupA entries k := by
  induction entries with
  | nil => rfl
  | cons kv rest ih =>
    obtain ⟨k0, v0⟩ := kv
    by_cases hkv : k0 = "pip"
    · subst hkv
      simp [lookupA, Ne.symm hk, ih]
    · rw [List.map_cons,
        if_neg (show ¬ (((k0 : String), v0).1 = "pip") from hkv)]
      by_cases hkk : k0 = k <;> simp [lookupA, hkk, ih]

/-- C3, amended: the provisioning CLI appends the resolved package
specifier to the `pip` sub-list of EVERY dependency entry that is a
mapping containing a `pip` key (once per such entry — so exactly once only
when the document has exactly one such entry); bare-string entries and
mappings without a `pip` key are left unchanged. -/
theorem c3_append_everywhere (spec : String) (deps : List CondaDep) (i : Nat) :
    (add_syw_spec spec deps).length = deps.length
    ∧ (∀ s, deps[i]? = some (.depstr s) →
        (add_syw_spec spec deps)[i]? = some (.depstr s))
    ∧ (∀ entries, deps[i]? = some (.depmap entries) →
        lookupA entries "pip" = none →
        (add_syw_spec spec deps)[i]? = some (.depmap entries))
    ∧ (∀ entries l, deps[i]? = some (.depmap entries) →
        lookupA entries "pip" = some l →
        ∃ entries', (add_syw_spec spec deps)[i]? = some (.depmap entries')
          ∧ lookupA entries' "pip" = some (l ++ [spec])
          ∧ ∀ k, k ≠ "pip" → lookupA entries' k = lookupA entries k) := by
  refine ⟨by simp [add_syw_spec], ?_, ?_, ?_⟩
  · intro s hs
    simp [add_syw_spec, List.getElem?_map, hs, append_pip_spec]
  · intro entries he hnone
    simp [add_syw_spec, List.getElem?_map, he, append_pip_spec, hnone]
  · intro entries l he hsome
    refine ⟨entries.map (fun kv =>
      if kv.1 = "pip" then (kv.1, kv.2 ++ [spec]) else kv), ?_, ?_, ?_⟩
    · simp [add_syw_spec, List.getElem?_map, he, append_pip_spec, hsome]
    · simp [lookupA_map_pip, hsome]
    · intro k hk
      exact lookupA_map_pip_ne spec entries k hk

/-- Witness for `c3_append_everywhere` on a one-entry document. -/
theorem c3_append_everywhere_witness :
    ∃ entries', (add_syw_spec "S" [CondaDep.depmap [("pip", ["a"])]])[0]?
        = some (.depmap entries')
      ∧ lookupA entries' "pip" = some (["a"] ++ ["S"])
      ∧ ∀ k, k ≠ "pip" → lookupA entries' k = lookupA [("pip", ["a"])] k :=
  (c3_append_everywhere "S" [CondaDep.depmap [("pip", ["a"])]] 0).2.2.2
    [("pip", ["a"])] ["a"] rfl rfl

/-! ## C4 -/

/-- C4: flattening a Zenodo `contents` declaration with default
destination `data` maps the nested mapping of `a` to `b.txt` to the
compound pair `a/b.txt` with synthesized target `data/a/b.txt`; a bare
string entry `file.txt` flattens to the pair with target `data/file.txt`;
and whenever the first path segment of a compound key ends with a
recognized archive extension (first match in `zip_exts` order), the
synthesized default target strips that extension from the first segment. -/
theorem c4_flattening :
    flatten_zenodo_contents ["zip"] (.vmap [("a", .vmap [("b.txt", .vnone)])]) "" "data"
      = .ok [("a/b.txt", .vstr "data/a/b.txt")]
    ∧ flatten_zenodo_contents ["zip"] (.vstr "file.txt") "" "data"
      = .ok [("file.txt", .vstr "data/file.txt")]
    ∧ ∀ (zx : List String) (defp new_key ext k1 : String) (rest : List String),
        strSplit new_key '/' = k1 :: rest →
        zx.find? (fun e => strEndsWith k1 ("." ++ e)) = some ext →
        default_target zx defp new_key
          = pathJoin (defp :: strDropRight k1 (strLen ext + 1) :: rest) := by
  refine ⟨?_, ?_, ?_⟩
  · simp only [flatten_zenodo_contents, flat_list]
    rfl
  · simp only [flatten_zenodo_contents, flat_list]
    rfl
  · intro zx defp new_key ext k1 rest hsplit hfind
    simp only [default_target]
    rw [hsplit]
    simp only [List.headD_cons, List.tail_cons]
    rw [hfind]

/-- Witness for `c4_flattening` (third part) at the compound key
`archive.zip/inner.csv` with recognized extension `zip`. -/
theorem c4_flattening_witness :
    default_target ["zip"] "data" "archive.zip/inner.csv"
      = "data/archive/inner.csv" := by
  have h := c4_flattening.2.2 ["zip"] "data" "archive.zip/inner.csv" "zip"
    "archive.zip" ["inner.csv"] (by decide) (by decide)
  rw [h]
  rfl

/-! ## C5 -/

theorem zip_step_eq_go (zx : List String) (tmp : String) (did : Int)
    (st : ZState) (source : String) (target : ZVal)
    (hlk : lookupA st.contents source = some target)
    (hnl : ∀ xs, target ≠ ZVal.vlist xs) :
    zip_step zx tmp did st source = zip_step_go zx tmp did st source target := by
  cases target with
  | vlist xs => exact absurd rfl (hnl xs)
  | vnone =>
    simp only [zip_step]
    rw [hlk]
  | vstr s =>
    simp only [zip_step]
    rw [hlk]
  | vmap m =>
    simp only [zip_step]
    rw [hlk]

theorem zip_step_go_eq (zx : List String) (tmp : String) (did : Int)
    (st : ZState) (source zfile : String) (rest : List String) (target : ZVal)
    (hsplit : strSplit source '/' = zfile :: rest)
    (hzip : zx.any (fun e => strEndsWith zfile ("." ++ e)) = true) :
    zip_step_go zx tmp did st source target = .ok
      { contents := insertA (eraseA st.contents source) zfile
          (.vstr (pathJoin [tmp, toString did, zfile])),
        zip_files := insertA st.zip_files zfile
          (insertA ((lookupA st.zip_files zfile).getD []) (pathJoin rest) target) } := by
  simp only [zip_step_go]
  rw [hsplit]
  simp only [List.headD_cons, List.tail_cons]
  rw [hzip]
  simp only [if_true]
  cases hmz : lookupA st.zip_files zfile with
  | none => rfl
  | some m => rfl

/-- C5: for a flattened contents pair whose (compound) source key starts
with an archive-named first segment, one iteration of the
archive-splitting loop removes the compound key from `contents`, merges
the in-archive mapping into `zip_files` under the archive name, and adds a
`contents` entry pointing the archive at the staging path
`tmp/<deposit_id>/<archive>`; concretely, the loop on the single pair
mapping `archive.zip/inner.csv` to `out/inner.csv` produces exactly the
staged state of the claim. -/
theorem c5_archive_splitting (zx : List String) (tmp : String) (did : Int)
    (st : ZState) (source zfile : String) (rest : List String) (target : ZVal)
    (hnodup : (st.contents.map Prod.fst).Nodup)
    (hlk : lookupA st.contents source = some target)
    (hnl : ∀ xs, target ≠ ZVal.vlist xs)
    (hsplit : strSplit source '/' = zfile :: rest)
    (hzip : zx.any (fun e => strEndsWith zfile ("." ++ e)) = true)
    (hne : source ≠ zfile) :
    (∃ st', zip_step zx tmp did st source = .ok st'
      ∧ lookupA st'.contents source = none
      ∧ lookupA st'.contents zfile
          = some (.vstr (pathJoin [tmp, toString did, zfile]))
      ∧ lookupA st'.zip_files zfile
          = some (insertA ((lookupA st.zip_files zfile).getD [])
              (pathJoin rest) target))
    ∧ parse_zip_contents ["zip"] "tmp" 12345
        [("archive.zip/inner.csv", .vstr "out/inner.csv")]
      = .ok { contents := [("archive.zip", .vstr "tmp/12345/archive.zip")],
              zip_files := [("archive.zip", [("inner.csv", .vstr "out/inner.csv")])] } := by
  constructor
  · refine ⟨_, (zip_step_eq_go zx tmp did st source target hlk hnl).trans
      (zip_step_go_eq zx tmp did st source zfile rest target hsplit hzip), ?_, ?_, ?_⟩
    · exact (lookupA_insertA_ne _ zfile source _ hne).trans
        (lookupA_eraseA_self _ _ hnodup)
    · exact lookupA_insertA_self _ _ _
    · exact lookupA_insertA_self _ _ _
  · rfl

/-- Witness for `c5_archive_splitting` at a state that already holds a
`zip_files` entry for the archive (exercising the merge). -/
theorem c5_archive_splitting_witness :
    ∃ st', zip_step ["zip"] "tmp" 207 ⟨[("archive.zip/inner.csv", .vstr "out/inner.csv")],
        [("archive.zip", [("old.csv", .vstr "x")])]⟩ "archive.zip/inner.csv" = .ok st'
      ∧ lookupA st'.contents "archive.zip/inner.csv" = none
      ∧ lookupA st'.contents "archive.zip"
          = some (.vstr (pathJoin ["tmp", toString (207 : Int), "archive.zip"]))
      ∧ lookupA st'.zip_files "archive.zip"
          = some (insertA ((lookupA [("archive.zip", [("old.csv", ZVal.vstr "x")])]
              "archive.zip").getD []) (pathJoin ["inner.csv"]) (.vstr "out/inner.csv")) :=
  (c5_archive_splitting ["zip"] "tmp" 207
    ⟨[("archive.zip/inner.csv", .vstr "out/inner.csv")],
     [("archive.zip", [("old.csv", .vstr "x")])]⟩
    "archive.zip/inner.csv" "archive.zip" ["inner.csv"] (.vstr "out/inner.csv")
    (by simp) rfl (fun xs h => ZVal.noConfusion h) (by decide) (by decide)
    (by decide)).1

/-! ## C6 -/

/-- C6: a deposit key that does not parse as an integer raises the
record-not-found failure (and a parsing key is accepted); a `"concept"`
classification raises the concept-specific invalid-id-type failure; any
other non-`"version"` classification raises the generic invalid-id-type
failure (a different message, as exhibited concretely); a `"version"`
classification never raises. -/
theorem c6_id_gate (k : String) (did : Int) (t : String) :
    (py_int? k = none →
      parse_deposit_key k = .error (.zenodoRecordNotFound k))
    ∧ (∀ n, py_int? k = some n → parse_deposit_key k = .ok n)
    ∧ check_id_type did "concept"
        = .error (.invalidZenodoIdType (zenodo_concept_msg did))
    ∧ (t ≠ "version" → t ≠ "concept" →
        check_id_type did t = .error (.invalidZenodoIdType (zenodo_invalid_msg did)))
    ∧ check_id_type did "version" = .ok ()
    ∧ zenodo_concept_msg 12345 ≠ zenodo_invalid_msg 12345
    ∧ parse_deposit_key "1234567" = .ok 1234567
    ∧ parse_deposit_key "not-an-int"
        = .error (.zenodoRecordNotFound "not-an-int") := by
  refine ⟨?_, ?_, rfl, ?_, rfl, by decide, rfl, rfl⟩
  · intro h
    simp [parse_deposit_key, h]
  · intro n h
    simp [parse_deposit_key, h]
  · intro h1 h2
    simp [check_id_type, h1, h2]

/-- Witness for `c6_id_gate` at a non-integer key and at a classification
that is neither `version` nor `concept`. -/
theorem c6_id_gate_witness :
    parse_deposit_key "rec-10" = .error (.zenodoRecordNotFound "rec-10")
    ∧ check_id_type 99 "draft"
        = .error (.invalidZenodoIdType (zenodo_invalid_msg 99)) :=
  ⟨(c6_id_gate "rec-10" 99 "draft").1 (by decide),
   (c6_id_gate "rec-10" 99 "draft").2.2.2.1 (by decide) (by decide)⟩

/-! ## C7 -/

/-- C7: overleaf validation raises a configuration failure whenever some
`push`/`pull` path resolves outside the manuscript-source directory, and
(for paths all inside it) whenever a resolved `push` path coincides,
relative to that directory, with a resolved `pull` path; for disjoint
lists all under the directory it succeeds, with `id` defaulted to absent
and `auto-commit` to false; absent and `null` `push`/`pull` fields both
normalize to empty lists. -/
theorem c7_overleaf (tex cwd : List String) (idv : Option String)
    (acv : Option Bool) (push pull : List String) :
    ((∃ f ∈ push ++ pull, tex.isPrefixOf (resolvePath cwd f) = false) →
      parse_overleaf tex cwd ⟨idv, acv, .list push, .list pull⟩
        = .error (.configError
            ("Error parsing the config. Files specified in `overleaf.push` and " ++
             "`overleaf.pull` must be located under the `src/tex` directory.")))
    ∧ ((∀ f ∈ push ++ pull, tex.isPrefixOf (resolvePath cwd f) = true) →
        ((∃ f ∈ push, ∃ g ∈ pull,
            relToStr tex (resolvePath cwd f) = relToStr tex (resolvePath cwd g)) →
          parse_overleaf tex cwd ⟨idv, acv, .list push, .list pull⟩
            = .error (.configError
                ("Error parsing the config. One more more files are listed in both " ++
                 "`overleaf.push` and `overleaf.pull`, which is not supported.")))
        ∧ ((∀ f ∈ push, ∀ g ∈ pull,
            relToStr tex (resolvePath cwd f) ≠ relToStr tex (resolvePath cwd g)) →
          parse_overleaf tex cwd ⟨idv, acv, .list push, .list pull⟩
            = .ok ⟨idv, acv.getD false, push, pull⟩))
    ∧ parse_overleaf tex cwd ⟨idv, acv, .absent, .null⟩
        = .ok ⟨idv, acv.getD false, [], []⟩
    ∧ parse_overleaf tex cwd ⟨none, none, .absent, .absent⟩
        = .ok ⟨none, false, [], []⟩ := by
  have hpp : parse_overleaf tex cwd ⟨idv, acv, .list push, .list pull⟩
      = overleaf_check tex cwd idv (acv.getD false) push pull := rfl
  refine ⟨?_, ?_, rfl, rfl⟩
  · rintro ⟨f, hf, hout⟩
    have hc : ((push ++ pull).any
        (fun file => ¬ tex.isPrefixOf (resolvePath cwd file))) = true :=
      List.any_eq_true.mpr ⟨f, hf, by simp [hout]⟩
    rw [hpp]
    simp only [overleaf_check]
    rw [if_pos hc]
  · intro hall
    have hc1 : ((push ++ pull).any
        (fun file => ¬ tex.isPrefixOf (resolvePath cwd file))) = false := by
      rw [List.any_eq_false]
      intro x hx
      simp [hall x hx]
    constructor
    · rintro ⟨f, hf, g, hg, heq⟩
      have hc2 : (push.any (fun f => pull.any (fun g =>
          relToStr tex (resolvePath cwd f) = relToStr tex (resolvePath cwd g)))) = true :=
        List.any_eq_true.mpr ⟨f, hf, List.any_eq_true.mpr ⟨g, hg, by simp [heq]⟩⟩
      rw [hpp]
      simp only [overleaf_check]
      rw [if_neg (by rw [hc1]; exact Bool.false_ne_true), if_pos hc2]
    · intro hdisj
      have hc2 : (push.any (fun f => pull.any (fun g =>
          relToStr tex (resolvePath cwd f) = relToStr tex (resolvePath cwd g)))) = false := by
        rw [List.any_eq_false]
        intro f hf
        rw [Bool.not_eq_true, List.any_eq_false]
        intro g hg
        simp [hdisj f hf g hg]
      rw [hpp]
      simp only [overleaf_check]
      rw [if_neg (by rw [hc1]; exact Bool.false_ne_true),
        if_neg (by rw [hc2]; exact Bool.false_ne_true)]

/-- Witness for `c7_overleaf`: a success on disjoint lists under the
manuscript-source directory, a failure when the same file is pushed and
pulled, and a failure when a file resolves outside the directory. -/
theorem c7_overleaf_witness :
    parse_overleaf ["repo", "src", "tex"] ["repo"]
        ⟨none, none, .list ["src/tex/a.tex"], .list ["src/tex/b.tex"]⟩
      = .ok ⟨none, false, ["src/tex/a.tex"], ["src/tex/b.tex"]⟩
    ∧ parse_overleaf ["repo", "src", "tex"] ["repo"]
        ⟨none, none, .list ["src/tex/notes.tex"], .list ["src/tex/notes.tex"]⟩
      = .error (.configError
          ("Error parsing the config. One more more files are listed in both " ++
           "`overleaf.push` and `overleaf.pull`, which is not supported."))
    ∧ parse_overleaf ["repo", "src", "tex"] ["repo"]
        ⟨none, none, .list ["notes.tex"], .list []⟩
      = .error (.configError
          ("Error parsing the config. Files specified in `overleaf.push` and " ++
           "`overleaf.pull` must be located under the `src/tex` directory.")) :=
  ⟨((c7_overleaf ["repo", "src", "tex"] ["repo"] none none
      ["src/tex/a.tex"] ["src/tex/b.tex"]).2.1 (by decide)).2 (by decide),
   ((c7_overleaf ["repo", "src", "tex"] ["repo"] none none
      ["src/tex/notes.tex"] ["src/tex/notes.tex"]).2.1 (by decide)).1
     ⟨"src/tex/notes.tex", by simp, "src/tex/notes.tex", by simp, by decide⟩,
   (c7_overleaf ["repo", "src", "tex"] ["repo"] none none
      ["notes.tex"] []).1 ⟨"notes.tex", by simp, by decide⟩⟩

/-! ## C8 -/

theorem check_order_error_form (elements labels captions : List XmlElem)
    (e : SywError) (h : check_order elements labels captions = .error e) :
    ∃ m, e = .figureFormatError m := by
  simp only [check_order] at h
  by_cases h1 : 0 < captions.length
  · rw [if_pos h1] at h
    by_cases h2 : 0 < labels.length
    · rw [if_pos h2] at h
      by_cases h3 : List.findIdx (fun e => e.tag == "LABEL") elements <
          elements.length - 1 -
            List.findIdx (fun e => e.tag == "CAPTION") elements.reverse
      · rw [if_pos h3] at h
        injection h with h'
        exact ⟨_, h'.symm⟩
      · rw [if_neg h3] at h
        by_cases h4 : List.findIdx (fun e => e.tag == "LABEL") elements <
            (if elements.any (fun e => e.tag == "MARGINICON") then
              List.findIdx (fun e => e.tag == "MARGINICON") elements
            else 0)
        · rw [if_pos h4] at h
          injection h with h'
          exact ⟨_, h'.symm⟩
        · rw [if_neg h4] at h
          exact Except.noConfusion h
    · rw [if_neg h2] at h
      exact Except.noConfusion h
  · rw [if_neg h1] at h
    exact Except.noConfusion h

/-- C8: figure markup validation raises a format failure for the child
order label-then-caption, succeeds for caption-then-label (with no label
nested inside the caption), raises for two or more direct label children
regardless of the rest of the block, and raises for a script directive
with no label in the block. -/
theorem c8_figure_format :
    (∀ (ltx ctx t tx : String) (lch cch : List XmlElem),
      ∃ m, check_figure_format
          ⟨t, tx, [⟨"LABEL", ltx, lch⟩, ⟨"CAPTION", ctx, cch⟩]⟩
        = .error (.figureFormatError m))
    ∧ (∀ (ltx ctx t tx : String) (lch cch : List XmlElem),
        findall ⟨"CAPTION", ctx, cch⟩ "LABEL" = [] →
        check_figure_format
            ⟨t, tx, [⟨"CAPTION", ctx, cch⟩, ⟨"LABEL", ltx, lch⟩]⟩
          = .ok ())
    ∧ (∀ fig : XmlElem, 2 ≤ (findall fig "LABEL").length →
        ∃ m, check_figure_format fig = .error (.figureFormatError m))
    ∧ (∀ fig : XmlElem, 0 < (findall fig "SCRIPT").length →
        (findall fig "LABEL").length = 0 →
        ∃ m, check_figure_format fig = .error (.figureFormatError m)) := by
  refine ⟨?_, ?_, ?_, ?_⟩
  · intro ltx ctx t tx lch cch
    simp only [check_figure_format]
    split
    · exact ⟨_, rfl⟩
    · exact ⟨_, rfl⟩
  · intro ltx ctx t tx lch cch hno
    have hcap : findall ⟨t, tx, [⟨"CAPTION", ctx, cch⟩, ⟨"LABEL", ltx, lch⟩]⟩
        "CAPTION" = [⟨"CAPTION", ctx, cch⟩] := rfl
    have hfind : List.find? (fun c => 0 < (findall c "LABEL").length)
        [(⟨"CAPTION", ctx, cch⟩ : XmlElem)] = none := by
      rw [List.find?_cons_of_neg]
      · rfl
      · simp [hno]
    simp only [check_figure_format, hcap, hfind]
    rfl
  · intro fig hlen
    simp only [check_figure_format]
    split
    · exact ⟨_, rfl⟩
    · cases hord : check_order fig.children (findall fig "LABEL")
          (findall fig "CAPTION") with
      | error e =>
        obtain ⟨m, rfl⟩ := check_order_error_form _ _ _ e hord
        exact ⟨m, rfl⟩
      | ok u =>
        have ht : check_tail (findall fig "LABEL") (findall fig "SCRIPT")
            = .error (.figureFormatError
              ("A figure has multiple labels: `" ++
               String.intercalate ", "
                 ((findall fig "LABEL").map (fun l => l.text)) ++ "`")) := by
          unfold check_tail
          rw [if_pos hlen]
        exact ⟨_, ht⟩
  · intro fig hscr hlab
    simp only [check_figure_format]
    split
    · exact ⟨_, rfl⟩
    · cases hord : check_order fig.children (findall fig "LABEL")
          (findall fig "CAPTION") with
      | error e =>
        obtain ⟨m, rfl⟩ := check_order_error_form _ _ _ e hord
        exact ⟨m, rfl⟩
      | ok u =>
        by_cases h2s : 2 ≤ (findall fig "SCRIPT").length
        · have ht : check_tail (findall fig "LABEL") (findall fig "SCRIPT")
              = .error (.figureFormatError
                ("A figure has multiple scripts: `" ++
                 String.intercalate ", "
                   ((findall fig "SCRIPT").map (fun s => s.text)) ++ "`")) := by
            unfold check_tail
            rw [if_neg (by omega), if_pos h2s]
          exact ⟨_, ht⟩
        · have ht : check_tail (findall fig "LABEL") (findall fig "SCRIPT")
              = .error (.figureFormatError
                ("A figure defines a script but has no label: `" ++
                 String.intercalate ", "
                   ((findall fig "SCRIPT").map (fun s => s.text)) ++ "`")) := by
            unfold check_tail
            rw [if_neg (by omega), if_neg h2s, if_pos ⟨hscr, hlab⟩]
          exact ⟨_, ht⟩

/-- Witness for `c8_figure_format` at concrete figure blocks: the order
label-then-caption fails, the order caption-then-label passes, a
two-label block fails, and a script-without-label block fails. -/
theorem c8_figure_format_witness :
    (∃ m, check_figure_format ⟨"FIGURE", "",
        [⟨"LABEL", "fig:a", []⟩, ⟨"CAPTION", "A caption", []⟩]⟩
      = .error (.figureFormatError m))
    ∧ check_figure_format ⟨"FIGURE", "",
        [⟨"CAPTION", "A caption", []⟩, ⟨"LABEL", "fig:a", []⟩]⟩ = .ok ()
    ∧ (∃ m, check_figure_format ⟨"FIGURE", "",
        [⟨"CAPTION", "c", []⟩, ⟨"LABEL", "fig:a", []⟩, ⟨"LABEL", "fig:b", []⟩]⟩
      = .error (.figureFormatError m))
    ∧ (∃ m, check_figure_format ⟨"FIGURE", "", [⟨"SCRIPT", "plot.py", []⟩]⟩
      = .error (.figureFormatError m)) :=
  ⟨c8_figure_format.1 "fig:a" "A caption" "FIGURE" "" [] [],
   c8_figure_format.2.1 "fig:a" "A caption" "FIGURE" "" [] [] rfl,
   c8_figure_format.2.2.1 ⟨"FIGURE", "",
     [⟨"CAPTION", "c", []⟩, ⟨"LABEL", "fig:a", []⟩, ⟨"LABEL", "fig:b", []⟩]⟩
     (by decide),
   c8_figure_format.2.2.2 ⟨"FIGURE", "", [⟨"SCRIPT", "plot.py", []⟩]⟩
     (by decide) (by decide)⟩

/-! ## C9 -/

/-- C9: a figure whose deduplicated dataset list has five distinct URLs
yields exactly three dataset label entries, suffixed `One`, `Two`,
`Three`, holding the first three URLs; the remaining two URLs produce no
dataset labels, while the entry's own `datasets` field still carries all
five, and deduplication never loses a collected URL. -/
theorem c9_dataset_label_cap (label : String) (collected : List String)
    (s : Option String) (g dep : List String) (c : Option String)
    (d1 d2 d3 d4 d5 : String)
    (h : dedup_datasets collected = [d1, d2, d3, d4, d5]) :
    figure_labels label ⟨s, g, dedup_datasets collected, dep, c⟩
      = (match s with
         | some v => [(label ++ "_script", v)]
         | none => []) ++
        [(label ++ "_datasetOne", d1), (label ++ "_datasetTwo", d2),
         (label ++ "_datasetThree", d3)]
    ∧ (⟨s, g, dedup_datasets collected, dep, c⟩ : FigureEntry).datasets
        = [d1, d2, d3, d4, d5]
    ∧ ∀ x ∈ collected,
        x ∈ (⟨s, g, dedup_datasets collected, dep, c⟩ : FigureEntry).datasets := by
  refine ⟨?_, h, ?_⟩
  · have e1 : label ++ "_dataset" ++ "One" = label ++ "_datasetOne" := by
      rw [String.append_assoc]
      rfl
    have e2 : label ++ "_dataset" ++ "Two" = label ++ "_datasetTwo" := by
      rw [String.append_assoc]
      rfl
    have e3 : label ++ "_dataset" ++ "Three" = label ++ "_datasetThree" := by
      rw [String.append_assoc]
      rfl
    have hred : figure_labels label ⟨s, g, dedup_datasets collected, dep, c⟩
        = (match s with
           | some v => [(label ++ "_script", v)]
           | none => []) ++
          [(label ++ "_dataset" ++ "One", d1), (label ++ "_dataset" ++ "Two", d2),
           (label ++ "_dataset" ++ "Three", d3)] := by
      simp only [figure_labels, h]
      rfl
    rw [hred, e1, e2, e3]
  · intro x hx
    show x ∈ dedup_datasets collected
    exact List.mem_dedup.mpr hx

/-- Witness for `c9_dataset_label_cap` at five concrete distinct URLs. -/
theorem c9_dataset_label_cap_witness :
    figure_labels "fig:data" ⟨some "plot.py", [],
        dedup_datasets ["u1", "u2", "u3", "u4", "u5"], [], none⟩
      = [("fig:data_script", "plot.py"), ("fig:data_datasetOne", "u1"),
         ("fig:data_datasetTwo", "u2"), ("fig:data_datasetThree", "u3")] :=
  (c9_dataset_label_cap "fig:data" ["u1", "u2", "u3", "u4", "u5"]
    (some "plot.py") [] [] none "u1" "u2" "u3" "u4" "u5" (by decide)).1

/-! ## C10 -/

/-- C10: after the tail of `get_json_tree` runs, the figure tree always
holds both synthetic entries: `free-floating-dynamic` with no script, no
datasets, no dependencies and no command, and `free-floating-static` with
no script, no datasets, no dependencies and a shell `cp` command
targeting the figures directory — which, when the static list is empty,
degenerates to a `cp` with no source operands (two spaces). -/
theorem c10_free_floating (figures : List (String × FigureEntry))
    (ffd ffs : List String) (static_rel dest : String) :
    lookupA (add_free_floating figures ffd ffs static_rel dest)
        "free-floating-dynamic"
      = some ⟨none, ffd, [], [], none⟩
    ∧ lookupA (add_free_floating figures ffd ffs static_rel dest)
        "free-floating-static"
      = some ⟨none, ffs, [], [],
          some ("cp " ++ String.intercalate " "
            (ffs.map (fun g => pathJoin [static_rel, basename g])) ++ " " ++ dest)⟩
    ∧ lookupA (add_free_floating figures ffd [] static_rel dest)
        "free-floating-static"
      = some ⟨none, [], [], [], some ("cp " ++ " " ++ dest)⟩ := by
  refine ⟨?_, ?_, ?_⟩
  · exact (lookupA_insertA_ne _ _ _ _ (by decide)).trans
      (lookupA_insertA_self _ _ _)
  · exact lookupA_insertA_self _ _ _
  · exact lookupA_insertA_self _ _ _
